import Mathlib

/-!
Verification of the stock-screening pipeline `znajdz_spolki_wzrostowe`
(src/skaner_rynku.py) of the vibe_stocks repository.

Modelling conventions:
* Closing prices are rationals (`ℚ`); a data gap (pandas NaN) is `none` in a
  `List (Option ℚ)` row series, and `dropna` removes the gaps.
* Negative pandas indexing `iloc[-k]` on a series of length `n` is element
  `n - k`; every use in the source is guarded by a length check.
* Rational division by zero yields `0`, so a zero denominator in the momentum
  formula gives `(0 - 1) * 100 = -100`, which fails the 15..80 band exactly as
  the float `inf`/`nan` produced by the source fails it.
* The bulk download `data` is an association list from ticker to its raw close
  series; a ticker missing from it is the source's `KeyError` path.
* The per-ticker `yf.Ticker(t).info.get('marketCap')` lookup is a function
  `String → Except Unit (Option ℚ)`: `.error` is an exception during lookup,
  `.ok none` an absent field.
* The benchmark 3-day return `sp500_wzrost_3d` is three-valued: `brak` is the
  Python `None`, `nan` the float NaN produced when `iloc[-1]` of the raw
  benchmark series is a gap (the source never drops gaps there), and `wart q`
  an actual number.  A comparison `x < nan` is false, as for float NaN.
-/

namespace VibeStocks

/-- `series.dropna()`: remove the gaps from a raw close series. -/
def dropna (l : List (Option ℚ)) : List ℚ := l.filterMap id

/-- `series.iloc[-k]` for a gap-free series: the element `k` places from the
end (meaningful when `k ≤ l.length`, which every call site guards). -/
def ineg (l : List ℚ) (k : ℕ) : ℚ := l.getD (l.length - k) 0

/-- `dni_kwartal = 63` trading sessions (source line 86). -/
def dniKwartal : ℕ := 63

/-- `dni_polrocze = 126` trading sessions (source line 87). -/
def dniPolrocze : ℕ := 126

/-- A candidate record, the dictionary accreted across the stages:
created by the momentum filter with the two returns, `marketCap` added by the
capitalization filter, `wzrost_3d` by the relative-strength filter. -/
structure Candidate where
  ticker : String
  wzrost_kwartalny : ℚ
  wzrost_polroczny : ℚ
  marketCap : Option ℚ := none
  wzrost_3d : Option ℚ := none
deriving DecidableEq, Repr

/-- The value of `sp500_wzrost_3d` after lines 56-74 of the source:
`brak` is Python `None`, `nan` a computed float NaN, `wart q` a number. -/
inductive Sp500Wzrost where
  | brak
  | nan
  | wart (q : ℚ)
deriving DecidableEq, Repr

/-- Lines 56-74: the benchmark return is computed from the RAW close series
(gaps are never dropped for `^GSPC`); it needs at least 4 rows and a valid
`iloc[-4]` price `> 0` (a NaN never satisfies `> 0`), and it is itself NaN
when `iloc[-1]` is a gap. -/
def sp500Wzrost3d (rows : List (Option ℚ)) : Sp500Wzrost :=
  if 4 ≤ rows.length then
    match rows.getD (rows.length - 4) none with
    | some cena3dTemu =>
      if 0 < cena3dTemu then
        match rows.getD (rows.length - 1) none with
        | some cenaTeraz => Sp500Wzrost.wart ((cenaTeraz / cena3dTemu - 1) * 100)
        | none => Sp500Wzrost.nan
      else Sp500Wzrost.brak
    | none => Sp500Wzrost.brak
  else Sp500Wzrost.brak

/-- `data[ticker]` on the bulk download: first matching column block, `none`
is the `KeyError` path. -/
def szukaj (dane : List (String × List (Option ℚ))) (t : String) :
    Option (List (Option ℚ)) :=
  (dane.find? (fun p => p.1 == t)).map Prod.snd

/-- Lines 92-118, the body of the momentum loop for one ticker: drop the gaps,
require at least `dni_polrocze + 1 = 127` valid prices, compute the quarterly
and semiannual returns and keep the ticker iff both bands hold. -/
def sprawdzWzrost (dane : List (String × List (Option ℚ))) (ticker : String) :
    Option Candidate :=
  match szukaj dane ticker with
  | none => none
  | some surowa =>
    let historia := dropna surowa
    if historia.length < dniPolrocze + 1 then none
    else
      let cenaAktualna := ineg historia 1
      let cenaKwartalTemu := ineg historia dniKwartal
      let cenaPolRokuTemu := ineg historia dniPolrocze
      let wzrostKwartalny := (cenaAktualna / cenaKwartalTemu - 1) * 100
      let wzrostPolroczny := (cenaAktualna / cenaPolRokuTemu - 1) * 100
      if 15 ≤ wzrostKwartalny ∧ wzrostKwartalny ≤ 80 ∧
          25 ≤ wzrostPolroczny ∧ wzrostPolroczny ≤ 100 then
        some { ticker := ticker, wzrost_kwartalny := wzrostKwartalny,
               wzrost_polroczny := wzrostPolroczny }
      else none

/-- Stage 1, the momentum filter (lines 91-118). -/
def krok1 (dane : List (String × List (Option ℚ))) (tickers : List String) :
    List Candidate :=
  tickers.filterMap (sprawdzWzrost dane)

/-- Lines 128-138, the body of the capitalization loop for one candidate:
`if market_cap and market_cap > 100_000_000` — the lookup must succeed, the
field must be present and truthy, and the value above the floor; the record
gains the `marketCap` field. -/
def sprawdzKap (kap : String → Except Unit (Option ℚ)) (k : Candidate) :
    Option Candidate :=
  match kap k.ticker with
  | Except.error _ => none
  | Except.ok none => none
  | Except.ok (some m) =>
    if ¬ m = 0 ∧ 100000000 < m then some { k with marketCap := some m }
    else none

/-- Stage 2, the capitalization filter (lines 126-138). -/
def krok2 (kap : String → Except Unit (Option ℚ)) (ks : List Candidate) :
    List Candidate :=
  ks.filterMap (sprawdzKap kap)

/-- `wzrost_3d_spolki < sp500_wzrost_3d` as the source evaluates it: false
against a float NaN (and stage 3 is never entered with `brak`). -/
def ltSp (w : ℚ) : Sp500Wzrost → Bool
  | Sp500Wzrost.wart b => decide (w < b)
  | _ => false

/-- Lines 167-186, the body of the relative-strength loop for one candidate:
re-use the bulk data, require at least 4 valid prices and `iloc[-4] > 0`,
keep iff the 3-day return is below the benchmark's; the record gains
`wzrost_3d`. -/
def sprawdzSile (dane : List (String × List (Option ℚ))) (sp : Sp500Wzrost)
    (k : Candidate) : Option Candidate :=
  match szukaj dane k.ticker with
  | none => none
  | some surowa =>
    let historia := dropna surowa
    if 4 ≤ historia.length then
      let cenaTeraz := ineg historia 1
      let cena3dTemu := ineg historia 4
      if 0 < cena3dTemu then
        let wzrost3dSpolki := (cenaTeraz / cena3dTemu - 1) * 100
        if ltSp wzrost3dSpolki sp then
          some { k with wzrost_3d := some wzrost3dSpolki }
        else none
      else none
    else none

/-- Stage 3, the relative-strength filter (lines 166-186). -/
def krok3 (dane : List (String × List (Option ℚ))) (sp : Sp500Wzrost)
    (ks : List Candidate) : List Candidate :=
  ks.filterMap (sprawdzSile dane sp)

/-- Lines 195-208, the body of the no-drawdown loop for one candidate:
require at least 7 valid prices and keep iff `iloc[-1] >= iloc[-7]`; the
record is unchanged. -/
def sprawdzSpadek (dane : List (String × List (Option ℚ))) (k : Candidate) :
    Option Candidate :=
  match szukaj dane k.ticker with
  | none => none
  | some surowa =>
    let historia := dropna surowa
    if 7 ≤ historia.length then
      if ineg historia 7 ≤ ineg historia 1 then some k else none
    else none

/-- Stage 4, the no-drawdown filter (lines 194-208). -/
def krok4 (dane : List (String × List (Option ℚ))) (ks : List Candidate) :
    List Candidate :=
  ks.filterMap (sprawdzSpadek dane)

/-- Round a rational to an integer number of hundredths, ties to even — the
idealization of the `:.2f` float format. -/
def round2 (q : ℚ) : ℤ :=
  let x := q * 100
  let f := ⌊x⌋
  if x - f < 1 / 2 then f
  else if 1 / 2 < x - f then f + 1
  else if f % 2 = 0 then f else f + 1

/-- `f"{q:.2f}"`: fixed two-decimal rendering, with the sign taken from the
value itself (Python prints `-0.00` for a small negative value). -/
def format2 (q : ℚ) : String :=
  let n := (round2 q).natAbs
  (if q < 0 then "-" else "") ++ toString (n / 100) ++ "." ++
    (if n % 100 < 10 then "0" else "") ++ toString (n % 100)

/-- The capitalization column: `"<v>B"` above the 1e9 threshold else
`"<v>M"` (lines 150-153 and 217). -/
def kapStr (mc : ℚ) : String :=
  if 1000000000 ≤ mc then format2 (mc / 1000000000) ++ "B"
  else format2 (mc / 1000000) ++ "M"

/-- One row of the printed report. `w3d` is absent on the degraded path. -/
structure RaportWiersz where
  ticker : String
  w3d : Option String
  wKw : String
  wPol : String
  kap : String
deriving DecidableEq, Repr

/-- A row of the degraded-path table (lines 154-159): no 3-day column. -/
def wierszOgraniczony (k : Candidate) : RaportWiersz :=
  { ticker := k.ticker, w3d := none,
    wKw := format2 k.wzrost_kwartalny ++ "%",
    wPol := format2 k.wzrost_polroczny ++ "%",
    kap := kapStr (k.marketCap.getD 0) }

/-- A row of the full-path table (lines 218-222). -/
def wierszPelny (k : Candidate) : RaportWiersz :=
  { ticker := k.ticker,
    w3d := some (format2 (k.wzrost_3d.getD 0) ++ "%"),
    wKw := format2 k.wzrost_kwartalny ++ "%",
    wPol := format2 k.wzrost_polroczny ++ "%",
    kap := kapStr (k.marketCap.getD 0) }

/-- One line of `wynik.txt` (lines 234-240):
`Ticker, quarterly, semiannual, 3-day` with two decimals each. -/
def linia (k : Candidate) : String :=
  k.ticker ++ ", " ++ format2 k.wzrost_kwartalny ++ ", " ++
    format2 k.wzrost_polroczny ++ ", " ++ format2 (k.wzrost_3d.getD 0) ++ "\n"

/-- The whole content of `wynik.txt` (lines 231-244): one line per final
survivor, then the `SP500` summary line when `sp500_wzrost_3d` is not `None`
(a NaN value would print as `nan`). -/
def plikTresc (ost : List Candidate) (sp : Sp500Wzrost) : String :=
  String.join (ost.map linia) ++
    match sp with
    | Sp500Wzrost.brak => ""
    | Sp500Wzrost.nan => "SP500, nan\n"
    | Sp500Wzrost.wart b => "SP500, " ++ format2 b ++ "\n"

/-- Which exit the run took. -/
inductive Sciezka where
  | pustaLista
  | brakDanych
  | brakKandydatow
  | brakKapitalizacji
  | ograniczony
  | brakFinalnych
  | brakOstatecznych
  | pelny
deriving DecidableEq, Repr

/-- The observable outcome of the pipeline body, before any file write:
the displayed candidate list, the printed report rows, the file content the
run will attempt to write (`none` when no write is attempted) and the path
taken. -/
structure Przebieg where
  wynikowe : List Candidate
  raport : List RaportWiersz
  tresc : Option String
  sciezka : Sciezka
deriving DecidableEq, Repr

/-- The body of `znajdz_spolki_wzrostowe` (lines 34-247) as a pure function
of its five data inputs: the ticker list, the `limit_spolek` cap, the raw
benchmark close rows, the bulk download and the capitalization lookup. -/
def przebieg (tickers : List String) (limit : ℕ) (sp500Rows : List (Option ℚ))
    (dane : List (String × List (Option ℚ)))
    (kapitalizacja : String → Except Unit (Option ℚ)) : Przebieg :=
  if tickers = [] then ⟨[], [], none, Sciezka.pustaLista⟩
  else
    let tickersDoAnalizy := tickers.take limit
    let sp := sp500Wzrost3d sp500Rows
    if dane = [] then ⟨[], [], none, Sciezka.brakDanych⟩
    else
      let kandydaci := krok1 dane tickersDoAnalizy
      if kandydaci = [] then ⟨[], [], none, Sciezka.brakKandydatow⟩
      else
        let kandydaciPoKapitalizacji := krok2 kapitalizacja kandydaci
        if kandydaciPoKapitalizacji = [] then
          ⟨[], [], none, Sciezka.brakKapitalizacji⟩
        else
          if sp = Sp500Wzrost.brak then
            ⟨kandydaciPoKapitalizacji,
             kandydaciPoKapitalizacji.map wierszOgraniczony, none,
             Sciezka.ograniczony⟩
          else
            let finalneSpolki := krok3 dane sp kandydaciPoKapitalizacji
            if finalneSpolki = [] then ⟨[], [], none, Sciezka.brakFinalnych⟩
            else
              let ostateczneSpolki := krok4 dane finalneSpolki
              if ostateczneSpolki = [] then
                ⟨[], [], none, Sciezka.brakOstatecznych⟩
              else
                ⟨ostateczneSpolki, ostateczneSpolki.map wierszPelny,
                 some (plikTresc ostateczneSpolki sp), Sciezka.pelny⟩

/-- The inputs of one run: the five data inputs of `przebieg`, whether the
file write would succeed, and the content of `wynik.txt` before the run. -/
structure Wejscie where
  tickers : List String
  limit : ℕ
  sp500Rows : List (Option ℚ)
  dane : List (String × List (Option ℚ))
  kapitalizacja : String → Except Unit (Option ℚ)
  zapisOk : Bool
  staryPlik : Option String

/-- The observable outcome of one run, file effects included. -/
structure Wynik where
  wynikowe : List Candidate
  raport : List RaportWiersz
  tresc : Option String
  probaZapisu : Bool
  plikKoncowy : Option String
  sciezka : Sciezka

/-- A full run of `znajdz_spolki_wzrostowe`: the pipeline body, then the
file effect — `open('wynik.txt', 'w')` replaces the previous content with
exactly `tresc` when the write succeeds; a failed write is reported and
leaves the report already printed (partial content of a failed write is
not distinguished from the previous content). -/
def znajdzSpolkiWzrostowe (w : Wejscie) : Wynik :=
  let p := przebieg w.tickers w.limit w.sp500Rows w.dane w.kapitalizacja
  { wynikowe := p.wynikowe, raport := p.raport, tresc := p.tresc,
    probaZapisu := p.tresc.isSome,
    plikKoncowy :=
      match p.tresc with
      | some t => if w.zapisOk then some t else w.staryPlik
      | none => w.staryPlik,
    sciezka := p.sciezka }

/-! ## Concrete example inputs, used by witnesses and counterexamples -/

/-- 127 valid prices: 80 sessions at 10 then 47 at 14, so the quarterly
return (`iloc[-63] = 10`) and the semiannual return (`iloc[-126] = 10`) are
both `+40%`, inside the bands. -/
def seriaWzrostowa : List (Option ℚ) :=
  List.replicate 80 (some (10 : ℚ)) ++ List.replicate 47 (some 14)

/-- 127 valid prices all zero: every denominator of the momentum formula is
zero. -/
def seriaZerowa : List (Option ℚ) := List.replicate 127 (some (0 : ℚ))

/-- A benchmark row series whose `iloc[-4]` is a gap while 4 valid prices
exist: `len >= 4` holds but `NaN > 0` is false. -/
def wierszeLuka : List (Option ℚ) :=
  [some 10, none, some 10, some 10, some 11]

/-- A capitalization lookup that always succeeds with 200 million. -/
def kapDuza : String → Except Unit (Option ℚ) :=
  fun _ => Except.ok (some 200000000)

/-- A run that reaches the degraded path: one momentum survivor, a large
capitalization, but an empty benchmark series. -/
def wejscieOgraniczone : Wejscie :=
  { tickers := ["AAA"], limit := 4000, sp500Rows := [],
    dane := [("AAA", seriaWzrostowa)], kapitalizacja := kapDuza,
    zapisOk := true, staryPlik := none }

/-- A run that reaches the full path: the same survivor, a benchmark series
giving a `+1%` 3-day return (the stock's 3-day return is `0% < 1%`, and the
price did not drop over 6 sessions). -/
def wejsciePelne : Wejscie :=
  { tickers := ["AAA"], limit := 4000,
    sp500Rows := [some 100, some 100, some 100, some 101],
    dane := [("AAA", seriaWzrostowa)], kapitalizacja := kapDuza,
    zapisOk := true, staryPlik := none }

/-! ## Theorems

The batteries `Rat` operations are `@[irreducible]`; computing with them in
`decide`/`rfl` proofs needs them semireducible in this section. -/

section Twierdzenia

attribute [local semireducible] Rat.mul Rat.add Rat.sub Rat.inv

/-- Characterization of one iteration of the momentum loop. -/
lemma sprawdzWzrost_some_iff
    (dane : List (String × List (Option ℚ))) (t : String) (c : Candidate) :
    sprawdzWzrost dane t = some c ↔
      ∃ surowa, szukaj dane t = some surowa ∧
        127 ≤ (dropna surowa).length ∧
        15 ≤ (ineg (dropna surowa) 1 / ineg (dropna surowa) 63 - 1) * 100 ∧
        (ineg (dropna surowa) 1 / ineg (dropna surowa) 63 - 1) * 100 ≤ 80 ∧
        25 ≤ (ineg (dropna surowa) 1 / ineg (dropna surowa) 126 - 1) * 100 ∧
        (ineg (dropna surowa) 1 / ineg (dropna surowa) 126 - 1) * 100 ≤ 100 ∧
        c = ⟨t, (ineg (dropna surowa) 1 / ineg (dropna surowa) 63 - 1) * 100,
              (ineg (dropna surowa) 1 / ineg (dropna surowa) 126 - 1) * 100,
              none, none⟩ := by
  constructor
  · intro h
    unfold sprawdzWzrost at h
    cases hs : szukaj dane t with
    | none => rw [hs] at h; exact absurd h (by simp)
    | some surowa =>
      rw [hs] at h
      simp only [dniKwartal, dniPolrocze] at h
      split_ifs at h with h1 h2
      all_goals first
        | exact Option.noConfusion h
        | exact ⟨surowa, rfl, by omega, h2.1, h2.2.1, h2.2.2.1, h2.2.2.2,
            (Option.some.inj h).symm⟩
  · rintro ⟨surowa, hs, hlen, h1, h2, h3, h4, hc⟩
    unfold sprawdzWzrost
    rw [hs]
    simp only [dniKwartal, dniPolrocze]
    rw [if_neg (by omega), if_pos ⟨h1, h2, h3, h4⟩, hc]

/-- A zero denominator in the momentum formula silently excludes the ticker:
rational division by zero makes the return `-100`, failing the band exactly
as the source's float `inf`/`nan` fails it. -/
lemma sprawdzWzrost_zero_denom
    (dane : List (String × List (Option ℚ))) (t : String)
    (surowa : List (Option ℚ)) (hs : szukaj dane t = some surowa)
    (hz : ineg (dropna surowa) 63 = 0 ∨ ineg (dropna surowa) 126 = 0) :
    sprawdzWzrost dane t = none := by
  unfold sprawdzWzrost
  rw [hs]
  simp only [dniKwartal, dniPolrocze]
  split_ifs with h1 h2
  · rfl
  · exfalso
    rcases hz with hz | hz
    · rw [hz, div_zero] at h2
      norm_num at h2
    · rw [hz, div_zero] at h2
      norm_num at h2
  · rfl

/-- Characterization of one iteration of the capitalization loop. -/
lemma sprawdzKap_some_iff (kap : String → Except Unit (Option ℚ))
    (c c' : Candidate) :
    sprawdzKap kap c = some c' ↔
      ∃ m, kap c.ticker = Except.ok (some m) ∧ 100000000 < m ∧
        c' = { c with marketCap := some m } := by
  constructor
  · intro h
    unfold sprawdzKap at h
    cases hk : kap c.ticker with
    | error e => rw [hk] at h; exact Option.noConfusion h
    | ok mc =>
      cases mc with
      | none => rw [hk] at h; exact Option.noConfusion h
      | some m =>
        rw [hk] at h
        dsimp only at h
        split_ifs at h with h1
        all_goals first
          | exact Option.noConfusion h
          | exact ⟨m, rfl, h1.2, (Option.some.inj h).symm⟩
  · rintro ⟨m, hk, hm, hc⟩
    have hm0 : ¬ m = 0 := by
      intro h0
      rw [h0] at hm
      norm_num at hm
    unfold sprawdzKap
    rw [hk]
    dsimp only
    rw [if_pos ⟨hm0, hm⟩, hc]

/-- The comparison against `sp500_wzrost_3d` holds only against an actual
numeric benchmark value (never against `None`, never against NaN). -/
lemma ltSp_eq_true (w : ℚ) (sp : Sp500Wzrost) :
    ltSp w sp = true ↔ ∃ b, sp = Sp500Wzrost.wart b ∧ w < b := by
  cases sp with
  | brak => simp [ltSp]
  | nan => simp [ltSp]
  | wart b => simp [ltSp]

/-- Characterization of one iteration of the relative-strength loop. -/
lemma sprawdzSile_some_iff (dane : List (String × List (Option ℚ)))
    (sp : Sp500Wzrost) (c c' : Candidate) :
    sprawdzSile dane sp c = some c' ↔
      ∃ surowa, szukaj dane c.ticker = some surowa ∧
        4 ≤ (dropna surowa).length ∧
        0 < ineg (dropna surowa) 4 ∧
        ltSp ((ineg (dropna surowa) 1 / ineg (dropna surowa) 4 - 1) * 100) sp
          = true ∧
        c' = { c with wzrost_3d := some ((ineg (dropna surowa) 1 / ineg (dropna surowa) 4 - 1) * 100) } := by
  constructor
  · intro h
    unfold sprawdzSile at h
    cases hs : szukaj dane c.ticker with
    | none => rw [hs] at h; exact Option.noConfusion h
    | some surowa =>
      rw [hs] at h
      dsimp only at h
      split_ifs at h with h1 h2 h3
      all_goals first
        | exact Option.noConfusion h
        | exact ⟨surowa, rfl, h1, h2, h3, (Option.some.inj h).symm⟩
  · rintro ⟨surowa, hs, h1, h2, h3, hc⟩
    unfold sprawdzSile
    rw [hs]
    dsimp only
    rw [if_pos h1, if_pos h2, if_pos h3, hc]

/-- Characterization of one iteration of the no-drawdown loop. -/
lemma sprawdzSpadek_some_iff (dane : List (String × List (Option ℚ)))
    (c c' : Candidate) :
    sprawdzSpadek dane c = some c' ↔
      ∃ surowa, szukaj dane c.ticker = some surowa ∧
        7 ≤ (dropna surowa).length ∧
        ineg (dropna surowa) 7 ≤ ineg (dropna surowa) 1 ∧
        c' = c := by
  constructor
  · intro h
    unfold sprawdzSpadek at h
    cases hs : szukaj dane c.ticker with
    | none => rw [hs] at h; exact Option.noConfusion h
    | some surowa =>
      rw [hs] at h
      dsimp only at h
      split_ifs at h with h1 h2
      all_goals first
        | exact Option.noConfusion h
        | exact ⟨surowa, rfl, h1, h2, (Option.some.inj h).symm⟩
  · rintro ⟨surowa, hs, h1, h2, hc⟩
    unfold sprawdzSpadek
    rw [hs]
    dsimp only
    rw [if_pos h1, if_pos h2, hc]

/-- **C1.** Momentum Filter correctness: a ticker yields a Candidate iff its
gap-dropped closing series exists, has at least 127 valid prices, and the
quarterly return `(series[-1]/series[-63] - 1) * 100` lies in `[15, 80]`
while the semiannual return `(series[-1]/series[-126] - 1) * 100` lies in
`[25, 100]`; the surviving Candidate carries exactly those two returns.
Moreover a missing series or insufficient history excludes the ticker (the
iff), and a zero denominator excludes it without error. -/
theorem momentum_filter_keep_iff
    (dane : List (String × List (Option ℚ))) (t : String) (c : Candidate) :
    (sprawdzWzrost dane t = some c ↔
      ∃ surowa, szukaj dane t = some surowa ∧
        127 ≤ (dropna surowa).length ∧
        15 ≤ (ineg (dropna surowa) 1 / ineg (dropna surowa) 63 - 1) * 100 ∧
        (ineg (dropna surowa) 1 / ineg (dropna surowa) 63 - 1) * 100 ≤ 80 ∧
        25 ≤ (ineg (dropna surowa) 1 / ineg (dropna surowa) 126 - 1) * 100 ∧
        (ineg (dropna surowa) 1 / ineg (dropna surowa) 126 - 1) * 100 ≤ 100 ∧
        c = ⟨t, (ineg (dropna surowa) 1 / ineg (dropna surowa) 63 - 1) * 100,
              (ineg (dropna surowa) 1 / ineg (dropna surowa) 126 - 1) * 100,
              none, none⟩) ∧
    (∀ surowa, szukaj dane t = some surowa →
      (ineg (dropna surowa) 63 = 0 ∨ ineg (dropna surowa) 126 = 0) →
      sprawdzWzrost dane t = none) :=
  ⟨sprawdzWzrost_some_iff dane t c,
   fun surowa hs hz => sprawdzWzrost_zero_denom dane t surowa hs hz⟩

/-- Stage-1 keep-predicate, on the record: both returns inside their bands
(spec: `15 ≤ quarterly ≤ 80` and `25 ≤ semiannual ≤ 100`). -/
def pasmaWzrostu (c : Candidate) : Prop :=
  15 ≤ c.wzrost_kwartalny ∧ c.wzrost_kwartalny ≤ 80 ∧
    25 ≤ c.wzrost_polroczny ∧ c.wzrost_polroczny ≤ 100

/-- Stage-2 keep-predicate, on the record: `marketCap > 100_000_000`. -/
def kapPowyzejProgu (c : Candidate) : Prop :=
  ∃ m, c.marketCap = some m ∧ 100000000 < m

/-- Stage-3 keep-predicate, on the record: `short_term < benchmark`. -/
def wolniejszyOdSp500 (sp : Sp500Wzrost) (c : Candidate) : Prop :=
  ∃ w, c.wzrost_3d = some w ∧ ltSp w sp = true

/-- Stage-4 keep-predicate: `price[-1] >= price[-7]` over at least 7 valid
prices of the candidate's series. -/
def bezSpadku (dane : List (String × List (Option ℚ))) (c : Candidate) :
    Prop :=
  ∃ surowa, szukaj dane c.ticker = some surowa ∧
    7 ≤ (dropna surowa).length ∧
    ineg (dropna surowa) 7 ≤ ineg (dropna surowa) 1

/-- A stage that maps each candidate to `none` or to a candidate with the
same ticker shrinks the ticker list to a sublist. -/
lemma filterMap_ticker_sublist (f : Candidate → Option Candidate)
    (hf : ∀ c c', f c = some c' → c'.ticker = c.ticker) :
    ∀ ks : List Candidate,
      ((ks.filterMap f).map Candidate.ticker).Sublist
        (ks.map Candidate.ticker)
  | [] => by simp
  | k :: ks => by
    cases hfk : f k with
    | none =>
      simp only [List.filterMap_cons, hfk, List.map_cons]
      exact (filterMap_ticker_sublist f hf ks).trans
        (List.sublist_cons_self _ _)
    | some c' =>
      simp only [List.filterMap_cons, hfk, List.map_cons, hf k c' hfk]
      exact (filterMap_ticker_sublist f hf ks).cons₂ _

/-- Unpacking membership in the stage-1 output. -/
lemma mem_krok1 {dane : List (String × List (Option ℚ))}
    {tickers : List String} {c : Candidate} (h : c ∈ krok1 dane tickers) :
    pasmaWzrostu c ∧ c.marketCap = none ∧ c.wzrost_3d = none := by
  obtain ⟨t, ht, hf⟩ := List.mem_filterMap.mp h
  obtain ⟨s, hs, hlen, h1, h2, h3, h4, hc⟩ :=
    (sprawdzWzrost_some_iff dane t c).mp hf
  subst hc
  exact ⟨⟨h1, h2, h3, h4⟩, rfl, rfl⟩

/-- Unpacking membership in the stage-2 output. -/
lemma mem_krok2 {kap : String → Except Unit (Option ℚ)}
    {ks : List Candidate} {c' : Candidate} (h : c' ∈ krok2 kap ks) :
    ∃ c ∈ ks, ∃ m, 100000000 < m ∧ c' = { c with marketCap := some m } := by
  obtain ⟨c, hc, hf⟩ := List.mem_filterMap.mp h
  obtain ⟨m, hk, hm, he⟩ := (sprawdzKap_some_iff kap c c').mp hf
  exact ⟨c, hc, m, hm, he⟩

/-- Unpacking membership in the stage-3 output. -/
lemma mem_krok3 {dane : List (String × List (Option ℚ))} {sp : Sp500Wzrost}
    {ks : List Candidate} {c' : Candidate} (h : c' ∈ krok3 dane sp ks) :
    ∃ c ∈ ks, ∃ w, ltSp w sp = true ∧ c' = { c with wzrost_3d := some w } := by
  obtain ⟨c, hc, hf⟩ := List.mem_filterMap.mp h
  obtain ⟨s, hs, h1, h2, h3, he⟩ := (sprawdzSile_some_iff dane sp c c').mp hf
  exact ⟨c, hc, _, h3, he⟩

/-- Unpacking membership in the stage-4 output: the record is passed
through unchanged and its series satisfies the no-drawdown predicate. -/
lemma mem_krok4 {dane : List (String × List (Option ℚ))}
    {ks : List Candidate} {c : Candidate} (h : c ∈ krok4 dane ks) :
    c ∈ ks ∧ bezSpadku dane c := by
  obtain ⟨c0, hc0, hf⟩ := List.mem_filterMap.mp h
  obtain ⟨s, hs, h1, h2, he⟩ := (sprawdzSpadek_some_iff dane c0 c).mp hf
  subst he
  exact ⟨hc0, s, hs, h1, h2⟩

set_option maxRecDepth 8000 in
/-- **C1, witness.** The rising example series passes the Momentum Filter
with both returns `+40%`; the all-zero series (zero denominators) is
excluded. -/
theorem momentum_filter_keep_iff_witness :
    sprawdzWzrost [("AAA", seriaWzrostowa)] "AAA" =
      some ⟨"AAA", 40, 40, none, none⟩ ∧
    sprawdzWzrost [("ZZZ", seriaZerowa)] "ZZZ" = none := by
  constructor
  · exact (momentum_filter_keep_iff [("AAA", seriaWzrostowa)] "AAA"
      ⟨"AAA", 40, 40, none, none⟩).1.mpr
      ⟨seriaWzrostowa, by decide, by decide, by decide, by decide, by decide,
        by decide, by decide⟩
  · exact (momentum_filter_keep_iff [("ZZZ", seriaZerowa)] "ZZZ"
      ⟨"ZZZ", 0, 0, none, none⟩).2 seriaZerowa (by decide)
      (Or.inl (by decide))

/-- **C2.** Stage monotonicity and accumulated predicates: each stage maps
every kept candidate to one of the input candidates (same ticker, earlier
fields unchanged, at most one field accreted), so the ticker list of stage
K+1's output is a sublist — hence a subset — of stage K's, and every
candidate present after stage K satisfies the keep-predicates of all
stages 1..K. -/
theorem stage_monotonicity_invariants
    (dane : List (String × List (Option ℚ)))
    (kap : String → Except Unit (Option ℚ)) (sp : Sp500Wzrost)
    (tickers : List String) :
    (∀ ks : List Candidate,
      ((krok2 kap ks).map Candidate.ticker).Sublist
        (ks.map Candidate.ticker)) ∧
    (∀ ks : List Candidate,
      ((krok3 dane sp ks).map Candidate.ticker).Sublist
        (ks.map Candidate.ticker)) ∧
    (∀ ks : List Candidate,
      ((krok4 dane ks).map Candidate.ticker).Sublist
        (ks.map Candidate.ticker)) ∧
    (∀ c' ∈ krok2 kap (krok1 dane tickers),
      ∃ c ∈ krok1 dane tickers, ∃ m,
        c' = { c with marketCap := some m }) ∧
    (∀ c' ∈ krok3 dane sp (krok2 kap (krok1 dane tickers)),
      ∃ c ∈ krok2 kap (krok1 dane tickers), ∃ w,
        c' = { c with wzrost_3d := some w }) ∧
    (∀ c ∈ krok4 dane (krok3 dane sp (krok2 kap (krok1 dane tickers))),
      c ∈ krok3 dane sp (krok2 kap (krok1 dane tickers))) ∧
    (∀ c ∈ krok1 dane tickers, pasmaWzrostu c) ∧
    (∀ c ∈ krok2 kap (krok1 dane tickers),
      pasmaWzrostu c ∧ kapPowyzejProgu c) ∧
    (∀ c ∈ krok3 dane sp (krok2 kap (krok1 dane tickers)),
      pasmaWzrostu c ∧ kapPowyzejProgu c ∧ wolniejszyOdSp500 sp c) ∧
    (∀ c ∈ krok4 dane (krok3 dane sp (krok2 kap (krok1 dane tickers))),
      pasmaWzrostu c ∧ kapPowyzejProgu c ∧ wolniejszyOdSp500 sp c ∧
        bezSpadku dane c) := by
  have hg : ∀ c ∈ krok1 dane tickers, pasmaWzrostu c :=
    fun c hc => (mem_krok1 hc).1
  have hh : ∀ c ∈ krok2 kap (krok1 dane tickers),
      pasmaWzrostu c ∧ kapPowyzejProgu c := by
    intro c' h
    obtain ⟨c, hcK1, m, hm, hc'⟩ := mem_krok2 h
    subst hc'
    exact ⟨hg c hcK1, m, rfl, hm⟩
  have hi : ∀ c ∈ krok3 dane sp (krok2 kap (krok1 dane tickers)),
      pasmaWzrostu c ∧ kapPowyzejProgu c ∧ wolniejszyOdSp500 sp c := by
    intro c' h
    obtain ⟨c, hcK2, w, hw, hc'⟩ := mem_krok3 h
    subst hc'
    obtain ⟨hp, m, hmc, hm⟩ := hh c hcK2
    exact ⟨hp, ⟨m, hmc, hm⟩, w, rfl, hw⟩
  have hj : ∀ c ∈ krok4 dane (krok3 dane sp (krok2 kap (krok1 dane tickers))),
      pasmaWzrostu c ∧ kapPowyzejProgu c ∧ wolniejszyOdSp500 sp c ∧
        bezSpadku dane c := by
    intro c h
    obtain ⟨hcK3, hbz⟩ := mem_krok4 h
    obtain ⟨hp, hk, hw⟩ := hi c hcK3
    exact ⟨hp, hk, hw, hbz⟩
  refine ⟨?_, ?_, ?_, ?_, ?_, ?_, hg, hh, hi, hj⟩
  · intro ks
    refine filterMap_ticker_sublist _ (fun c c' h => ?_) ks
    obtain ⟨m, _, _, he⟩ := (sprawdzKap_some_iff kap c c').mp h
    rw [he]
  · intro ks
    refine filterMap_ticker_sublist _ (fun c c' h => ?_) ks
    obtain ⟨s, _, _, _, _, he⟩ := (sprawdzSile_some_iff dane sp c c').mp h
    rw [he]
  · intro ks
    refine filterMap_ticker_sublist _ (fun c c' h => ?_) ks
    obtain ⟨s, _, _, _, he⟩ := (sprawdzSpadek_some_iff dane c c').mp h
    rw [he]
  · intro c' h
    obtain ⟨c, hc, m, _, he⟩ := mem_krok2 h
    exact ⟨c, hc, m, he⟩
  · intro c' h
    obtain ⟨c, hc, w, _, he⟩ := mem_krok3 h
    exact ⟨c, hc, w, he⟩
  · intro c h
    exact (mem_krok4 h).1

set_option maxRecDepth 8000 in
/-- **C2, witness.** On the concrete full-path run, the stage-1 survivor
satisfies the momentum bands and the final survivor satisfies all four
accumulated predicates. -/
theorem stage_monotonicity_invariants_witness :
    pasmaWzrostu ⟨"AAA", 40, 40, none, none⟩ ∧
    (pasmaWzrostu ⟨"AAA", 40, 40, some 200000000, some 0⟩ ∧
      kapPowyzejProgu ⟨"AAA", 40, 40, some 200000000, some 0⟩ ∧
      wolniejszyOdSp500 (Sp500Wzrost.wart 1)
        ⟨"AAA", 40, 40, some 200000000, some 0⟩ ∧
      bezSpadku [("AAA", seriaWzrostowa)]
        ⟨"AAA", 40, 40, some 200000000, some 0⟩) := by
  obtain ⟨-, -, -, -, -, -, hg, -, -, hj⟩ :=
    stage_monotonicity_invariants [("AAA", seriaWzrostowa)] kapDuza
      (Sp500Wzrost.wart 1) ["AAA"]
  exact ⟨hg ⟨"AAA", 40, 40, none, none⟩ (by decide),
    hj ⟨"AAA", 40, 40, some 200000000, some 0⟩ (by decide)⟩

/-- **C3.** Capitalization Filter correctness: a Candidate survives iff the
lookup succeeds, the field is present, and the value is strictly greater
than 100,000,000 (the Python truthiness test `market_cap and market_cap >
100_000_000` adds nothing, since any value above the floor is nonzero);
the survivor's record gains exactly the `marketCap` field.  A failed or
absent lookup excludes only that candidate: the stage distributes over list
concatenation, so one candidate's outcome never affects the rest of the
batch. -/
theorem cap_filter_keep_iff (kap : String → Except Unit (Option ℚ))
    (c c' : Candidate) :
    (sprawdzKap kap c = some c' ↔
      ∃ m, kap c.ticker = Except.ok (some m) ∧ 100000000 < m ∧
        c' = { c with marketCap := some m }) ∧
    (∀ ks1 ks2 : List Candidate,
      krok2 kap (ks1 ++ ks2) = krok2 kap ks1 ++ krok2 kap ks2) :=
  ⟨sprawdzKap_some_iff kap c c',
   fun ks1 ks2 => by simp [krok2, List.filterMap_append]⟩

/-- **C3, witness.** The concrete 200-million lookup keeps the candidate
and adds the `marketCap` field. -/
theorem cap_filter_keep_iff_witness :
    sprawdzKap kapDuza ⟨"AAA", 40, 40, none, none⟩ =
      some ⟨"AAA", 40, 40, some 200000000, none⟩ :=
  (cap_filter_keep_iff kapDuza ⟨"AAA", 40, 40, none, none⟩
      ⟨"AAA", 40, 40, some 200000000, none⟩).1.mpr
    ⟨200000000, rfl, by norm_num, by decide⟩

/-- **C4.** Relative-Strength Filter correctness: when the benchmark 3-day
return is available as a numeric value `b`, a Candidate survives iff its
gap-dropped series exists, has at least 4 valid prices, `price[-4] > 0`,
and `(price[-1]/price[-4] - 1) * 100 < b`; the survivor gains exactly the
`wzrost_3d` field.  Candidates with fewer than 4 valid prices or
`price[-4] ≤ 0` are excluded by the same iff, not treated as failures. -/
theorem relative_strength_keep_iff (dane : List (String × List (Option ℚ)))
    (b : ℚ) (c c' : Candidate) :
    sprawdzSile dane (Sp500Wzrost.wart b) c = some c' ↔
      ∃ surowa, szukaj dane c.ticker = some surowa ∧
        4 ≤ (dropna surowa).length ∧
        0 < ineg (dropna surowa) 4 ∧
        (ineg (dropna surowa) 1 / ineg (dropna surowa) 4 - 1) * 100 < b ∧
        c' = { c with wzrost_3d := some ((ineg (dropna surowa) 1 / ineg (dropna surowa) 4 - 1) * 100) } := by
  simp only [sprawdzSile_some_iff, ltSp, decide_eq_true_eq]

set_option maxRecDepth 8000 in
/-- **C4, witness.** Against a `+1%` benchmark, the concrete candidate's
`0%` 3-day return keeps it, and the record gains `wzrost_3d = 0`. -/
theorem relative_strength_keep_iff_witness :
    sprawdzSile [("AAA", seriaWzrostowa)] (Sp500Wzrost.wart 1)
      ⟨"AAA", 40, 40, some 200000000, none⟩ =
      some ⟨"AAA", 40, 40, some 200000000, some 0⟩ :=
  (relative_strength_keep_iff [("AAA", seriaWzrostowa)] 1
      ⟨"AAA", 40, 40, some 200000000, none⟩
      ⟨"AAA", 40, 40, some 200000000, some 0⟩).mpr
    ⟨seriaWzrostowa, by decide, by decide, by decide, by decide, by decide⟩

/-- **C5.** No-Drawdown Filter correctness: a Candidate survives iff its
gap-dropped series exists, has at least 7 valid prices, and
`price[-1] >= price[-7]`; the record passes through unchanged, and a
candidate with fewer than 7 valid prices is excluded by the same iff. -/
theorem no_drawdown_keep_iff (dane : List (String × List (Option ℚ)))
    (c c' : Candidate) :
    sprawdzSpadek dane c = some c' ↔
      ∃ surowa, szukaj dane c.ticker = some surowa ∧
        7 ≤ (dropna surowa).length ∧
        ineg (dropna surowa) 7 ≤ ineg (dropna surowa) 1 ∧
        c' = c :=
  sprawdzSpadek_some_iff dane c c'

set_option maxRecDepth 8000 in
/-- **C5, witness.** The concrete survivor's series ends with seven equal
prices, so `price[-1] >= price[-7]` keeps it unchanged. -/
theorem no_drawdown_keep_iff_witness :
    sprawdzSpadek [("AAA", seriaWzrostowa)]
      ⟨"AAA", 40, 40, some 200000000, some 0⟩ =
      some ⟨"AAA", 40, 40, some 200000000, some 0⟩ :=
  (no_drawdown_keep_iff [("AAA", seriaWzrostowa)]
      ⟨"AAA", 40, 40, some 200000000, some 0⟩
      ⟨"AAA", 40, 40, some 200000000, some 0⟩).mpr
    ⟨seriaWzrostowa, by decide, by decide, by decide, rfl⟩

/-! ### Run-level helper lemmas -/

lemma znajdz_wynikowe (w : Wejscie) :
    (znajdzSpolkiWzrostowe w).wynikowe =
      (przebieg w.tickers w.limit w.sp500Rows w.dane w.kapitalizacja).wynikowe
      := rfl

lemma znajdz_raport (w : Wejscie) :
    (znajdzSpolkiWzrostowe w).raport =
      (przebieg w.tickers w.limit w.sp500Rows w.dane w.kapitalizacja).raport
      := rfl

lemma znajdz_tresc (w : Wejscie) :
    (znajdzSpolkiWzrostowe w).tresc =
      (przebieg w.tickers w.limit w.sp500Rows w.dane w.kapitalizacja).tresc
      := rfl

lemma znajdz_sciezka (w : Wejscie) :
    (znajdzSpolkiWzrostowe w).sciezka =
      (przebieg w.tickers w.limit w.sp500Rows w.dane w.kapitalizacja).sciezka
      := rfl

lemma znajdz_probaZapisu (w : Wejscie) :
    (znajdzSpolkiWzrostowe w).probaZapisu =
      (przebieg w.tickers w.limit w.sp500Rows w.dane
        w.kapitalizacja).tresc.isSome := rfl

lemma znajdz_plikKoncowy (w : Wejscie) :
    (znajdzSpolkiWzrostowe w).plikKoncowy =
      match (przebieg w.tickers w.limit w.sp500Rows w.dane
          w.kapitalizacja).tresc with
      | some t => if w.zapisOk then some t else w.staryPlik
      | none => w.staryPlik := rfl

/-- A run attempts the file write exactly on the full path. -/
lemma przebieg_isSome_iff (t : List String) (l : ℕ) (s : List (Option ℚ))
    (d : List (String × List (Option ℚ)))
    (k : String → Except Unit (Option ℚ)) :
    (przebieg t l s d k).tresc.isSome = true ↔
      (przebieg t l s d k).sciezka = Sciezka.pelny := by
  simp only [przebieg]
  split_ifs
  all_goals simp

/-- On the full path the run's outcome is exactly the stage-4 survivor
list, its report, and the file content. -/
lemma przebieg_pelny (t : List String) (l : ℕ) (s : List (Option ℚ))
    (d : List (String × List (Option ℚ)))
    (k : String → Except Unit (Option ℚ))
    (h : (przebieg t l s d k).sciezka = Sciezka.pelny) :
    krok4 d (krok3 d (sp500Wzrost3d s) (krok2 k (krok1 d (t.take l)))) ≠ []
      ∧
    przebieg t l s d k =
      ⟨krok4 d (krok3 d (sp500Wzrost3d s) (krok2 k (krok1 d (t.take l)))),
       (krok4 d (krok3 d (sp500Wzrost3d s)
         (krok2 k (krok1 d (t.take l))))).map wierszPelny,
       some (plikTresc
         (krok4 d (krok3 d (sp500Wzrost3d s) (krok2 k (krok1 d (t.take l)))))
         (sp500Wzrost3d s)),
       Sciezka.pelny⟩ := by
  simp only [przebieg] at h ⊢
  split_ifs at h ⊢
  all_goals simp_all

/-- A nonempty stage-4 output forces the benchmark to be an actual numeric
value: every stage-3 survivor carries a comparison that only a
`Sp500Wzrost.wart` benchmark can satisfy. -/
lemma sp_wart_of_ost_ne_nil {d : List (String × List (Option ℚ))}
    {sp : Sp500Wzrost} {ks : List Candidate}
    (h : krok4 d (krok3 d sp ks) ≠ []) :
    ∃ b, sp = Sp500Wzrost.wart b := by
  obtain ⟨c, hc⟩ := List.exists_mem_of_ne_nil _ h
  obtain ⟨hc3, -⟩ := mem_krok4 hc
  obtain ⟨c0, -, w, hw, -⟩ := mem_krok3 hc3
  obtain ⟨b, hb, -⟩ := (ltSp_eq_true w sp).mp hw
  exact ⟨b, hb⟩

/-- **C6, counterexample.** The claim states the benchmark return is
computed whenever at least 4 valid (non-gap) prices exist with
`valid[-4] > 0`.  The series `[10, gap, 10, 10, 11]` has 4 valid prices
and `valid[-4] = 10 > 0`, yet the source computes nothing: it never drops
gaps from the benchmark series, `iloc[-4]` hits the gap, and `NaN > 0` is
false. -/
theorem benchmark_guard_counterexample :
    sp500Wzrost3d wierszeLuka = Sp500Wzrost.brak ∧
    4 ≤ (dropna wierszeLuka).length ∧
    0 < ineg (dropna wierszeLuka) 4 := by decide

/-- **C6, amended.** The benchmark 3-day return is computed iff the RAW
benchmark series (gaps not dropped) has at least 4 rows and the row
`iloc[-4]` holds a valid price `> 0`: when `iloc[-1]` is a valid price the
value is `(iloc[-1]/iloc[-4] - 1) * 100`, and when `iloc[-1]` is itself a
gap the computed value is the float NaN.  Otherwise the return is left
unavailable, and then the whole run never reaches the relative-strength or
no-drawdown stages — the comparison is skipped rather than failing. -/
theorem benchmark_guard_amended (rows : List (Option ℚ)) :
    (sp500Wzrost3d rows = Sp500Wzrost.brak ↔
      ¬ (4 ≤ rows.length ∧
        ∃ p, rows.getD (rows.length - 4) none = some p ∧ 0 < p)) ∧
    (∀ p q : ℚ, 4 ≤ rows.length →
      rows.getD (rows.length - 4) none = some p → 0 < p →
      rows.getD (rows.length - 1) none = some q →
      sp500Wzrost3d rows = Sp500Wzrost.wart ((q / p - 1) * 100)) ∧
    (∀ p : ℚ, 4 ≤ rows.length →
      rows.getD (rows.length - 4) none = some p → 0 < p →
      rows.getD (rows.length - 1) none = none →
      sp500Wzrost3d rows = Sp500Wzrost.nan) ∧
    (∀ (tickers : List String) (limit : ℕ)
      (dane : List (String × List (Option ℚ)))
      (kap : String → Except Unit (Option ℚ)),
      sp500Wzrost3d rows = Sp500Wzrost.brak →
      (przebieg tickers limit rows dane kap).sciezka ≠ Sciezka.pelny ∧
      (przebieg tickers limit rows dane kap).sciezka ≠ Sciezka.brakFinalnych
        ∧
      (przebieg tickers limit rows dane kap).sciezka ≠
        Sciezka.brakOstatecznych) := by
  refine ⟨?_, ?_, ?_, ?_⟩
  · unfold sp500Wzrost3d
    rcases Nat.lt_or_ge rows.length 4 with h4 | h4
    · rw [if_neg (by omega)]
      simp only [eq_self_iff_true, true_iff]
      exact fun hcon => absurd hcon.1 (by omega)
    · rw [if_pos h4]
      cases hg : rows.getD (rows.length - 4) none with
      | none => simp [h4, hg]
      | some p =>
        dsimp only
        split_ifs with hp
        · cases hq : rows.getD (rows.length - 1) none with
          | none => simp [h4, hg, hp]
          | some q => simp [h4, hg, hp]
        · simp [h4, hg, hp]
  · intro p q h4 hp hpp hq
    unfold sp500Wzrost3d
    rw [if_pos h4, hp]
    dsimp only
    rw [if_pos hpp, hq]
  · intro p h4 hp hpp hq
    unfold sp500Wzrost3d
    rw [if_pos h4, hp]
    dsimp only
    rw [if_pos hpp, hq]
  · intro tickers limit dane kap hbrak
    simp only [przebieg]
    split_ifs <;> simp_all

/-- **C6, amended, witness.** A 4-row gap-free benchmark series rising
from 100 to 101 yields a `+1%` 3-day return; the same series with its
last row a gap yields the NaN marker. -/
theorem benchmark_guard_amended_witness :
    sp500Wzrost3d [some 100, some 100, some 100, some 101] =
      Sp500Wzrost.wart ((101 / 100 - 1) * 100) ∧
    sp500Wzrost3d [some 100, some 100, some 100, none] = Sp500Wzrost.nan :=
  ⟨(benchmark_guard_amended [some 100, some 100, some 100, some 101]).2.1
      100 101 (by decide) (by decide) (by decide) (by decide),
   (benchmark_guard_amended [some 100, some 100, some 100, none]).2.2.1
      100 (by decide) (by decide) (by decide) (by decide)⟩

set_option maxRecDepth 8000 in
/-- **C7, counterexample.** The claim states the degraded path hands the
stage-2 survivors to the Result Writer, described as formatting AND
persistence of the survivor list.  On the concrete degraded run there is a
stage-2 survivor and the formatted report is produced, but no file write
is even attempted: the source's degraded branch prints the table and
returns before the `open('wynik.txt', 'w')` block. -/
theorem degraded_no_persistence_counterexample :
    (znajdzSpolkiWzrostowe wejscieOgraniczone).sciezka =
      Sciezka.ograniczony ∧
    (znajdzSpolkiWzrostowe wejscieOgraniczone).wynikowe =
      [⟨"AAA", 40, 40, some 200000000, none⟩] ∧
    (znajdzSpolkiWzrostowe wejscieOgraniczone).raport ≠ [] ∧
    (znajdzSpolkiWzrostowe wejscieOgraniczone).probaZapisu = false ∧
    (znajdzSpolkiWzrostowe wejscieOgraniczone).plikKoncowy = none := by
  decide

/-- **C7, amended.** Whenever the benchmark 3-day return is unavailable,
the pipeline stops after the Capitalization Filter and hands the stage-2
survivors directly to the result formatting: the displayed list is exactly
the stage-2 output, formatted without a 3-day column, the run completes
without error and without applying the Relative-Strength or No-Drawdown
filters, and the survivor list is NOT persisted — no write is attempted
and the previous file content is untouched. -/
theorem degraded_completion_amended (w : Wejscie)
    (hsp : sp500Wzrost3d w.sp500Rows = Sp500Wzrost.brak)
    (ht : ¬ w.tickers = []) (hd : ¬ w.dane = [])
    (h1 : ¬ krok1 w.dane (w.tickers.take w.limit) = [])
    (h2 : ¬ krok2 w.kapitalizacja (krok1 w.dane (w.tickers.take w.limit))
      = []) :
    znajdzSpolkiWzrostowe w =
      { wynikowe :=
          krok2 w.kapitalizacja (krok1 w.dane (w.tickers.take w.limit)),
        raport :=
          (krok2 w.kapitalizacja
            (krok1 w.dane (w.tickers.take w.limit))).map wierszOgraniczony,
        tresc := none,
        probaZapisu := false,
        plikKoncowy := w.staryPlik,
        sciezka := Sciezka.ograniczony } := by
  have hp : przebieg w.tickers w.limit w.sp500Rows w.dane w.kapitalizacja =
      ⟨krok2 w.kapitalizacja (krok1 w.dane (w.tickers.take w.limit)),
       (krok2 w.kapitalizacja
         (krok1 w.dane (w.tickers.take w.limit))).map wierszOgraniczony,
       none, Sciezka.ograniczony⟩ := by
    simp only [przebieg]
    rw [if_neg ht, if_neg hd, if_neg h1, if_neg h2, if_pos hsp]
  simp only [znajdzSpolkiWzrostowe, hp]
  rfl

set_option maxRecDepth 8000 in
/-- **C7, amended, witness.** The concrete degraded run (empty benchmark
series, one momentum-and-capitalization survivor) produces exactly the
stage-2 report and leaves the file untouched. -/
theorem degraded_completion_amended_witness :
    znajdzSpolkiWzrostowe wejscieOgraniczone =
      { wynikowe :=
          krok2 wejscieOgraniczone.kapitalizacja
            (krok1 wejscieOgraniczone.dane
              (wejscieOgraniczone.tickers.take wejscieOgraniczone.limit)),
        raport :=
          (krok2 wejscieOgraniczone.kapitalizacja
            (krok1 wejscieOgraniczone.dane
              (wejscieOgraniczone.tickers.take
                wejscieOgraniczone.limit))).map wierszOgraniczony,
        tresc := none,
        probaZapisu := false,
        plikKoncowy := wejscieOgraniczone.staryPlik,
        sciezka := Sciezka.ograniczony } :=
  degraded_completion_amended wejscieOgraniczone (by decide) (by decide)
    (by decide) (by decide) (by decide)

/-- **C8.** Result-file format: on a run that reaches the full path the
benchmark return is an actual value `b`, the survivor list is nonempty,
and the attempted file content is exactly one line per survivor, in
survivor order, of the form `TICKER, Q, H, ST` (two-decimal fixed-point,
comma-space separated), followed by the line `SP500, <b>` — present
exactly because the benchmark was computed on every such run.  A
successful write replaces the file with exactly this content regardless of
the previous content (mode `'w'`, overwrite not append), and neither a
write failure nor the previous file content affects the printed report or
the content computed for the file. -/
theorem result_file_format (w : Wejscie)
    (h : (znajdzSpolkiWzrostowe w).sciezka = Sciezka.pelny) :
    ∃ b, sp500Wzrost3d w.sp500Rows = Sp500Wzrost.wart b ∧
      (znajdzSpolkiWzrostowe w).wynikowe ≠ [] ∧
      (znajdzSpolkiWzrostowe w).tresc =
        some (String.join ((znajdzSpolkiWzrostowe w).wynikowe.map linia) ++
          ("SP500, " ++ format2 b ++ "\n")) ∧
      (∀ c ∈ (znajdzSpolkiWzrostowe w).wynikowe,
        ∃ st, c.wzrost_3d = some st ∧
          linia c = c.ticker ++ ", " ++ format2 c.wzrost_kwartalny ++ ", " ++
            format2 c.wzrost_polroczny ++ ", " ++ format2 st ++ "\n") ∧
      (w.zapisOk = true →
        (znajdzSpolkiWzrostowe w).plikKoncowy =
          (znajdzSpolkiWzrostowe w).tresc) ∧
      (w.zapisOk = false →
        (znajdzSpolkiWzrostowe w).plikKoncowy = w.staryPlik) ∧
      (∀ (z : Bool) (p : Option String),
        (znajdzSpolkiWzrostowe
            { w with zapisOk := z, staryPlik := p }).raport =
          (znajdzSpolkiWzrostowe w).raport ∧
        (znajdzSpolkiWzrostowe
            { w with zapisOk := z, staryPlik := p }).tresc =
          (znajdzSpolkiWzrostowe w).tresc) := by
  rw [znajdz_sciezka] at h
  obtain ⟨hne, heq⟩ :=
    przebieg_pelny w.tickers w.limit w.sp500Rows w.dane w.kapitalizacja h
  obtain ⟨b, hb⟩ := sp_wart_of_ost_ne_nil hne
  refine ⟨b, hb, ?_, ?_, ?_, ?_, ?_, fun z p => ⟨rfl, rfl⟩⟩
  · rw [znajdz_wynikowe, heq]
    exact hne
  · rw [znajdz_tresc, znajdz_wynikowe, heq]
    simp [plikTresc, hb]
  · rw [znajdz_wynikowe, heq]
    intro c hc
    obtain ⟨hc3, -⟩ := mem_krok4 hc
    obtain ⟨c0, -, v, -, hv⟩ := mem_krok3 hc3
    refine ⟨v, by rw [hv], ?_⟩
    rw [hv]
    simp [linia]
  · intro hz
    rw [znajdz_plikKoncowy, znajdz_tresc, heq]
    dsimp only
    rw [hz]
    simp
  · intro hz
    rw [znajdz_plikKoncowy, heq]
    dsimp only
    rw [hz]
    simp

set_option maxRecDepth 8000 in
/-- **C8, witness.** The concrete full run writes exactly one survivor
line and the benchmark summary line. -/
theorem result_file_format_witness :
    (znajdzSpolkiWzrostowe wejsciePelne).tresc =
      some "AAA, 40.00, 40.00, 0.00\nSP500, 1.00\n" := by
  obtain ⟨b, hb, -, ht, -⟩ := result_file_format wejsciePelne (by decide)
  have hb1 : b = 1 := by
    have h2 : Sp500Wzrost.wart b = Sp500Wzrost.wart 1 := by
      rw [← hb]
      decide
    exact Sp500Wzrost.wart.inj h2
  subst hb1
  rw [ht]
  decide

/-- **C9.** Determinism: two runs on an identical ticker list, identical
fetched price series (stocks and benchmark), and identical capitalization
lookups produce the same surviving candidate list (tickers and order), the
same formatted report strings, the same file content and the same path —
whatever the write-success flag or the previous file content. -/
theorem pipeline_deterministic (w1 w2 : Wejscie)
    (h1 : w1.tickers = w2.tickers) (h2 : w1.limit = w2.limit)
    (h3 : w1.sp500Rows = w2.sp500Rows) (h4 : w1.dane = w2.dane)
    (h5 : w1.kapitalizacja = w2.kapitalizacja) :
    (znajdzSpolkiWzrostowe w1).wynikowe =
      (znajdzSpolkiWzrostowe w2).wynikowe ∧
    (znajdzSpolkiWzrostowe w1).raport = (znajdzSpolkiWzrostowe w2).raport ∧
    (znajdzSpolkiWzrostowe w1).tresc = (znajdzSpolkiWzrostowe w2).tresc ∧
    (znajdzSpolkiWzrostowe w1).sciezka =
      (znajdzSpolkiWzrostowe w2).sciezka := by
  have hp : przebieg w1.tickers w1.limit w1.sp500Rows w1.dane
      w1.kapitalizacja =
      przebieg w2.tickers w2.limit w2.sp500Rows w2.dane w2.kapitalizacja :=
    by rw [h1, h2, h3, h4, h5]
  exact ⟨by rw [znajdz_wynikowe w1, znajdz_wynikowe w2, hp],
    by rw [znajdz_raport w1, znajdz_raport w2, hp],
    by rw [znajdz_tresc w1, znajdz_tresc w2, hp],
    by rw [znajdz_sciezka w1, znajdz_sciezka w2, hp]⟩

/-- **C9, witness.** The full run and its copy with a failing file write
print the same report. -/
theorem pipeline_deterministic_witness :
    (znajdzSpolkiWzrostowe wejsciePelne).raport =
      (znajdzSpolkiWzrostowe
        { wejsciePelne with zapisOk := false }).raport :=
  (pipeline_deterministic wejsciePelne
    { wejsciePelne with zapisOk := false } rfl rfl rfl rfl rfl).2.1

/-- **C10.** Frame effect of the result file: a write is attempted exactly
on the full path; reaching the full path forces a computed numeric
benchmark return and a nonempty four-stage survivor list; on every other
path (degraded no-benchmark completion and all early returns) no write is
attempted and the previous file content is untouched; and whenever the
file content actually changed, the run took the full path with a
successful write. -/
theorem file_write_frame (w : Wejscie) :
    ((znajdzSpolkiWzrostowe w).probaZapisu = true ↔
      (znajdzSpolkiWzrostowe w).sciezka = Sciezka.pelny) ∧
    ((znajdzSpolkiWzrostowe w).sciezka = Sciezka.pelny →
      (∃ b, sp500Wzrost3d w.sp500Rows = Sp500Wzrost.wart b) ∧
      (znajdzSpolkiWzrostowe w).wynikowe ≠ []) ∧
    ((znajdzSpolkiWzrostowe w).sciezka ≠ Sciezka.pelny →
      (znajdzSpolkiWzrostowe w).probaZapisu = false ∧
      (znajdzSpolkiWzrostowe w).plikKoncowy = w.staryPlik) ∧
    ((znajdzSpolkiWzrostowe w).plikKoncowy ≠ w.staryPlik →
      (znajdzSpolkiWzrostowe w).sciezka = Sciezka.pelny ∧
      w.zapisOk = true) := by
  have hiff : (znajdzSpolkiWzrostowe w).probaZapisu = true ↔
      (znajdzSpolkiWzrostowe w).sciezka = Sciezka.pelny := by
    rw [znajdz_probaZapisu, znajdz_sciezka]
    exact przebieg_isSome_iff w.tickers w.limit w.sp500Rows w.dane
      w.kapitalizacja
  have hfull : (znajdzSpolkiWzrostowe w).sciezka = Sciezka.pelny →
      (∃ b, sp500Wzrost3d w.sp500Rows = Sp500Wzrost.wart b) ∧
      (znajdzSpolkiWzrostowe w).wynikowe ≠ [] := by
    intro h
    rw [znajdz_sciezka] at h
    obtain ⟨hne, heq⟩ :=
      przebieg_pelny w.tickers w.limit w.sp500Rows w.dane w.kapitalizacja h
    refine ⟨sp_wart_of_ost_ne_nil hne, ?_⟩
    rw [znajdz_wynikowe, heq]
    exact hne
  have htresc : (znajdzSpolkiWzrostowe w).sciezka ≠ Sciezka.pelny →
      (przebieg w.tickers w.limit w.sp500Rows w.dane
        w.kapitalizacja).tresc = none := by
    intro h
    have hi : ¬ (znajdzSpolkiWzrostowe w).probaZapisu = true :=
      fun hc => h (hiff.mp hc)
    rw [znajdz_probaZapisu] at hi
    exact Option.not_isSome_iff_eq_none.mp (by simpa using hi)
  have hrest : (znajdzSpolkiWzrostowe w).sciezka ≠ Sciezka.pelny →
      (znajdzSpolkiWzrostowe w).probaZapisu = false ∧
      (znajdzSpolkiWzrostowe w).plikKoncowy = w.staryPlik := by
    intro h
    refine ⟨?_, ?_⟩
    · rw [znajdz_probaZapisu, htresc h]
      rfl
    · rw [znajdz_plikKoncowy, htresc h]
  refine ⟨hiff, hfull, hrest, ?_⟩
  intro hne
  by_cases hs : (znajdzSpolkiWzrostowe w).sciezka = Sciezka.pelny
  · refine ⟨hs, ?_⟩
    by_contra hz
    have hz' : w.zapisOk = false := by
      revert hz
      cases w.zapisOk <;> simp
    rw [znajdz_sciezka] at hs
    obtain ⟨-, heq⟩ :=
      przebieg_pelny w.tickers w.limit w.sp500Rows w.dane w.kapitalizacja hs
    rw [znajdz_plikKoncowy, heq] at hne
    dsimp only at hne
    rw [hz'] at hne
    simp at hne
  · exact absurd (hrest hs).2 hne

set_option maxRecDepth 8000 in
/-- **C10, witness.** The concrete degraded run attempts no write and
leaves the (empty) previous file state unchanged. -/
theorem file_write_frame_witness :
    (znajdzSpolkiWzrostowe wejscieOgraniczone).probaZapisu = false ∧
    (znajdzSpolkiWzrostowe wejscieOgraniczone).plikKoncowy =
      wejscieOgraniczone.staryPlik :=
  (file_write_frame wejscieOgraniczone).2.2.1 (by decide)

end Twierdzenia

end VibeStocks
